import Mathlib

/-!
Verification development for the workplace-search MCP gateway
(`src/mcp.py`). The Python code is shallowly embedded: pydantic models
become structures, the mock search service and its aggregation loop become
pure functions, raised exceptions become `Except` errors, and wall-clock
timestamps are threaded through as an explicit `now : Int` parameter
(milliseconds). Python's stable `list.sort(key=..., reverse=True)` is
embedded as a stable insertion sort on the score key, which computes the
same output as any stable descending sort.
-/

/-- One scored search hit, embedding the pydantic `SearchResult` model.
`score` is embedded as a rational; the only scores the code produces are
the literals 0.95 and 0.88, which are exact. `last_modified` is an
optional timestamp in epoch milliseconds. -/
structure SearchResult where
  title : String
  source : String
  url : String
  snippet : String
  score : ℚ
  last_modified : Option Int
  content : Option String
deriving DecidableEq

/-- Embedding of the pydantic `WorkplaceSearchRequest` model. `max_results`
is a Python `int`, embedded as `Int`; pydantic's `ge=1, le=50` bounds are
enforced by `mkWorkplaceSearchRequest` below, not by this raw structure. -/
structure WorkplaceSearchRequest where
  query : String
  sources : List String
  max_results : Int
  include_content : Bool
deriving DecidableEq

/-- Embedding of the pydantic `WorkplaceSearchResponse` model. The
`execution_time_ms` field is wall-clock duration in the code; the pure
embedding always reports 0 for it. -/
structure WorkplaceSearchResponse where
  results : List SearchResult
  total_count : Nat
  query : String
  sources : List String
  execution_time_ms : Int
deriving DecidableEq

/-- Embedding of the pydantic `UserClaims` model (JWT user claims). -/
structure UserClaims where
  user_id : String
  email : String
  scopes : List String
  exp : Int
deriving DecidableEq

/-- A raised `fastapi.HTTPException`, carrying status code and detail. -/
structure HTTPException where
  status : Nat
  detail : String
deriving DecidableEq

/-- Equality of `Except` outcomes is decidable when both components are;
used to evaluate embedded functions at concrete inputs. -/
instance {ε α : Type} [DecidableEq ε] [DecidableEq α] : DecidableEq (Except ε α) := fun x y =>
  match x, y with
  | Except.ok a, Except.ok b =>
    if h : a = b then isTrue (by rw [h]) else isFalse fun hc => h (Except.ok.inj hc)
  | Except.ok _, Except.error _ => isFalse fun hc => Except.noConfusion hc
  | Except.error _, Except.ok _ => isFalse fun hc => Except.noConfusion hc
  | Except.error e, Except.error f =>
    if h : e = f then isTrue (by rw [h]) else isFalse fun hc => h (Except.error.inj hc)

/-- Embedding of Python `s.startswith(pre)`: `pre` is a plain string
prefix of `s`, tested on the character lists. -/
def strStartsWith (s pre : String) : Bool :=
  pre.data.isPrefixOf s.data

/-- Embedding of pydantic validation at construction of
`WorkplaceSearchRequest`: `max_results` carries `ge=1, le=50`, so an
out-of-range value is a 422 validation error and an in-range value is
stored unchanged. -/
def mkWorkplaceSearchRequest (query : String) (sources : List String)
    (max_results : Int) (include_content : Bool) :
    Except HTTPException WorkplaceSearchRequest :=
  if 1 ≤ max_results ∧ max_results ≤ 50 then
    Except.ok ⟨query, sources, max_results, include_content⟩
  else
    Except.error ⟨422, "validation error: max_results out of range"⟩

/-- Embedding of `check_scope` (src/mcp.py lines 183-190): exact list
membership of the required scope; on failure it raises HTTP 403. -/
def check_scope (required_scope : String) (user : UserClaims) :
    Except HTTPException UserClaims :=
  if required_scope ∈ user.scopes then
    Except.ok user
  else
    Except.error ⟨403, "Insufficient permissions. Required scope: " ++ required_scope⟩

/-- Embedding of the permission gate inside `call_tool`
(src/mcp.py lines 420-427): `any(scope.startswith(required_scope) for
scope in user.scopes)`. -/
def callToolScopeCheck (user : UserClaims) (required_scope : String) : Bool :=
  user.scopes.any fun scope => strStartsWith scope required_scope

/-- The `call_tool` gate for the `workplace_search` tool, where the code
fixes `required_scope = "workplace:read"`. -/
def callToolWorkplaceGate (user : UserClaims) : Bool :=
  callToolScopeCheck user "workplace:read"

/-- The spec's authorization rule, written from the spec's words for
comparison with the code: a claim set grants `required` if it holds a
scope `s` with `s == required` or `s` equal to `required` followed by a
`:`-delimited suffix. -/
def specGrants (scopes : List String) (required : String) : Bool :=
  scopes.any fun s => decide (s = required) || strStartsWith s (required ++ ":")

/-- An adapter failure: any exception a source adapter raises inside the
aggregation loop. -/
inductive AdapterError
  | failure
deriving DecidableEq

/-- A source adapter: (query, user_token, max_results) to either a raised
exception or a list of results, matching the 4.3 adapter contract shape
of `search_google_drive` / `search_notion`. -/
def Adapter : Type :=
  String → String → Int → Except AdapterError (List SearchResult)

/-- Milliseconds in one day, for `timedelta(days=n)`. -/
def dayMs : Int := 86400000

/-- Embedding of `WorkplaceSearchService.search_google_drive`
(src/mcp.py lines 252-266): one mock result with score 0.95, truncated to
`max_results`. `now` stands for `datetime.utcnow()` in epoch ms; the
`user_token` argument is accepted and unused exactly as in the mock. -/
def search_google_drive (now : Int) (query : String) (user_token : String)
    (max_results : Int) : List SearchResult :=
  let _ := user_token
  let mock_results : List SearchResult :=
    [{ title := "Document about " ++ query
       source := "google_drive"
       url := "https://drive.google.com/doc/mock"
       snippet := "This document contains information about " ++ query ++ "..."
       score := 0.95
       last_modified := some (now - 1 * dayMs)
       content := some ("Full content about " ++ query ++ " would be here...") }]
  mock_results.take max_results.toNat

/-- Embedding of `WorkplaceSearchService.search_notion`
(src/mcp.py lines 268-282): one mock result with score 0.88, truncated to
`max_results`. -/
def search_notion (now : Int) (query : String) (user_token : String)
    (max_results : Int) : List SearchResult :=
  let _ := user_token
  let mock_results : List SearchResult :=
    [{ title := "Notion page: " ++ query
       source := "notion"
       url := "https://notion.so/mock-page"
       snippet := "Notion content about " ++ query ++ "..."
       score := 0.88
       last_modified := some (now - 2 * dayMs)
       content := some ("Full Notion content about " ++ query ++ "...") }]
  mock_results.take max_results.toNat

/-- One iteration of the aggregation loop of `WorkplaceSearchService.search`
(src/mcp.py lines 295-314) for a single source name: dispatch on the
source string, gate by exact membership of `workplace:read:<source>` in
the claim set's scopes, call the adapter with the query, the mock token
and `request.max_results`, and absorb any adapter exception into zero
results (the `try/except` around the body). -/
def sourceResults (gd nt : Adapter) (request : WorkplaceSearchRequest)
    (user : UserClaims) (source : String) : List SearchResult :=
  if source = "google_drive" ∧ "workplace:read:google_drive" ∈ user.scopes then
    match gd request.query "mock_google_token" request.max_results with
    | Except.ok rs => rs
    | Except.error _ => []
  else if source = "notion" ∧ "workplace:read:notion" ∈ user.scopes then
    match nt request.query "mock_notion_token" request.max_results with
    | Except.ok rs => rs
    | Except.error _ => []
  else
    []

/-- The combined `all_results` sequence collected by the loop, in arrival
order: sources in `request.sources` list order, each source's results in
adapter-returned order. -/
def collectedResults (gd nt : Adapter) (request : WorkplaceSearchRequest)
    (user : UserClaims) : List SearchResult :=
  (request.sources.map (sourceResults gd nt request user)).flatten

/-- Insert a result into a score-descending list, after all entries whose
score is strictly greater and before all entries with equal or smaller
score; used head-first below this computes a stable descending sort. -/
def insertDesc (r : SearchResult) : List SearchResult → List SearchResult
  | [] => [r]
  | x :: xs => if x.score ≤ r.score then r :: x :: xs else x :: insertDesc r xs

/-- Embedding of `all_results.sort(key=lambda x: x.score, reverse=True)`:
a stable sort by score descending. -/
def sortByScoreDesc : List SearchResult → List SearchResult
  | [] => []
  | x :: xs => insertDesc x (sortByScoreDesc xs)

/-- Embedding of `WorkplaceSearchService.search` (src/mcp.py lines
284-328), parameterized by the two adapters: loop over the requested
sources with per-source gating and exception absorption, stable-sort the
combined list by score descending, truncate to `max_results`, and wrap
the response echoing query and sources. -/
def searchWith (gd nt : Adapter) (request : WorkplaceSearchRequest)
    (user : UserClaims) : WorkplaceSearchResponse :=
  let all_results := collectedResults gd nt request user
  let final_results := (sortByScoreDesc all_results).take request.max_results.toNat
  { results := final_results
    total_count := final_results.length
    query := request.query
    sources := request.sources
    execution_time_ms := 0 }

/-- The Google Drive mock as an `Adapter` (it never raises). -/
def mockDriveAdapter (now : Int) : Adapter :=
  fun q t m => Except.ok (search_google_drive now q t m)

/-- The Notion mock as an `Adapter` (it never raises). -/
def mockNotionAdapter (now : Int) : Adapter :=
  fun q t m => Except.ok (search_notion now q t m)

/-- An adapter contributing no results, for stating that a failing
adapter is equivalent to an empty one. -/
def adapterNoResults : Adapter :=
  fun _ _ _ => Except.ok []

/-- `WorkplaceSearchService.search` as the code runs it: the aggregation
loop instantiated with the two mock adapters. -/
def search (now : Int) (request : WorkplaceSearchRequest)
    (user : UserClaims) : WorkplaceSearchResponse :=
  searchWith (mockDriveAdapter now) (mockNotionAdapter now) request user

/-- Outcome of the `httpx` round trip to the identity provider's `/keys`
endpoint inside `verify_descope_token`: either an HTTP response with a
status code, or the client raised (provider unreachable). -/
inductive ProviderCall
  | response (status : Nat)
  | raised
deriving DecidableEq

/-- Outcome of `jwt.decode` on the presented token: a payload with the
claims the code extracts, or a `JWTError`. -/
inductive JwtDecodeOutcome
  | payload (sub email : String) (permissions : List String) (exp : Int)
  | jwtError
deriving DecidableEq

/-- An exception escaping `verify_descope_token`: either an
`HTTPException`, or the raw network error from the `httpx` client (which
is not a `JWTError` and so is not caught inside the function). -/
inductive RaisedError
  | http (e : HTTPException)
  | network
deriving DecidableEq

/-- Embedding of `verify_descope_token` (src/mcp.py lines 144-171): a
non-200 status from the provider raises HTTP 401 "Invalid token" (an
`HTTPException` is not a `JWTError`, so it escapes the `try`); a network
failure of the provider call escapes raw; a `JWTError` from decoding is
caught and re-raised as HTTP 401 "Invalid token"; otherwise the claims
are extracted from the payload. -/
def verify_descope_token (provider : ProviderCall)
    (decode : JwtDecodeOutcome) : Except RaisedError UserClaims :=
  match provider with
  | ProviderCall.raised => Except.error RaisedError.network
  | ProviderCall.response status =>
    if status ≠ 200 then
      Except.error (RaisedError.http ⟨401, "Invalid token"⟩)
    else
      match decode with
      | JwtDecodeOutcome.jwtError =>
        Except.error (RaisedError.http ⟨401, "Invalid token"⟩)
      | JwtDecodeOutcome.payload sub email permissions exp =>
        Except.ok ⟨sub, email, permissions, exp⟩

/-- Embedding of `get_current_user` (src/mcp.py lines 173-181): an
`HTTPException` from the verifier is re-raised unchanged; any other
exception becomes HTTP 401 "Authentication failed". -/
def get_current_user (provider : ProviderCall)
    (decode : JwtDecodeOutcome) : Except HTTPException UserClaims :=
  match verify_descope_token provider decode with
  | Except.ok u => Except.ok u
  | Except.error (RaisedError.http e) => Except.error e
  | Except.error RaisedError.network => Except.error ⟨401, "Authentication failed"⟩

/-! ## Lemmas about the stable descending sort -/

theorem insertDesc_mem {a r : SearchResult} {l : List SearchResult} :
    a ∈ insertDesc r l ↔ a = r ∨ a ∈ l := by
  induction l with
  | nil => simp [insertDesc]
  | cons x xs ih =>
    by_cases h : x.score ≤ r.score
    · simp [insertDesc, h]
    · simp only [insertDesc, if_neg h, List.mem_cons, ih]
      tauto

theorem insertDesc_length (r : SearchResult) (l : List SearchResult) :
    (insertDesc r l).length = l.length + 1 := by
  induction l with
  | nil => rfl
  | cons x xs ih =>
    by_cases h : x.score ≤ r.score <;> simp [insertDesc, h, ih]

theorem sortByScoreDesc_length (l : List SearchResult) :
    (sortByScoreDesc l).length = l.length := by
  induction l with
  | nil => rfl
  | cons x xs ih => simp [sortByScoreDesc, insertDesc_length, ih]

theorem insertDesc_pairwise {r : SearchResult} {l : List SearchResult}
    (h : l.Pairwise fun a b => b.score ≤ a.score) :
    (insertDesc r l).Pairwise fun a b => b.score ≤ a.score := by
  induction l with
  | nil => simp [insertDesc]
  | cons x xs ih =>
    rcases List.pairwise_cons.mp h with ⟨hx, hxs⟩
    by_cases hc : x.score ≤ r.score
    · simp only [insertDesc, if_pos hc]
      refine List.pairwise_cons.mpr ⟨?_, h⟩
      intro b hb
      rcases List.mem_cons.mp hb with rfl | hb
      · exact hc
      · exact le_trans (hx b hb) hc
    · simp only [insertDesc, if_neg hc]
      refine List.pairwise_cons.mpr ⟨?_, ih hxs⟩
      intro b hb
      rcases insertDesc_mem.mp hb with rfl | hb
      · exact le_of_not_le hc
      · exact hx b hb

theorem sortByScoreDesc_pairwise (l : List SearchResult) :
    (sortByScoreDesc l).Pairwise fun a b => b.score ≤ a.score := by
  induction l with
  | nil => simp [sortByScoreDesc]
  | cons x xs ih =>
    simp only [sortByScoreDesc]
    exact insertDesc_pairwise ih

theorem insertDesc_filter (r : SearchResult) (l : List SearchResult) (s : ℚ) :
    (insertDesc r l).filter (fun x => decide (x.score = s)) =
      if r.score = s then r :: l.filter (fun x => decide (x.score = s))
      else l.filter (fun x => decide (x.score = s)) := by
  induction l with
  | nil =>
    by_cases h : r.score = s <;> simp [insertDesc, List.filter_cons, h]
  | cons x xs ih =>
    by_cases hc : x.score ≤ r.score
    · simp only [insertDesc, if_pos hc]
      by_cases h : r.score = s <;> simp [List.filter_cons, h]
    · simp only [insertDesc, if_neg hc]
      by_cases h : r.score = s
      · have hx : ¬ x.score = s := fun hxs => hc (le_of_eq (hxs.trans h.symm))
        simp [List.filter_cons, hx, ih, h]
      · by_cases hx : x.score = s <;> simp [List.filter_cons, hx, ih, h]

theorem sortByScoreDesc_filter (l : List SearchResult) (s : ℚ) :
    (sortByScoreDesc l).filter (fun x => decide (x.score = s)) =
      l.filter (fun x => decide (x.score = s)) := by
  induction l with
  | nil => rfl
  | cons x xs ih =>
    simp only [sortByScoreDesc, insertDesc_filter, ih]
    by_cases h : x.score = s <;> simp [List.filter_cons, h]

/-! ## General helper lemmas -/

theorem flatten_all_nil {α : Type} :
    ∀ (L : List (List α)), (∀ l ∈ L, l = []) → L.flatten = []
  | [], _ => rfl
  | l :: ls, h => by
    have hl : l = [] := h l (List.mem_cons_self l ls)
    have hls : ls.flatten = [] := flatten_all_nil ls fun x hx => h x (List.mem_cons_of_mem l hx)
    simp [hl, hls]

theorem strStartsWith_iff (s pre : String) :
    strStartsWith s pre = true ↔ ∃ t, s = pre ++ t := by
  unfold strStartsWith
  rw [ List.isPrefixOf_iff_prefix]
  constructor
  · rintro ⟨u, hu⟩
    refine ⟨⟨u⟩, ?_⟩
    apply String.ext
    rw [String.data_append]
    exact hu.symm
  · rintro ⟨t, rfl⟩
    exact ⟨t.data, (String.data_append pre t).symm⟩

/-! ## Claim theorems -/

/-- C1, counterexample: the claimed iff fails on the code. `check_scope`
uses exact membership, so a claim set holding only
`workplace:read:google_drive` is rejected for `workplace:read` although
the spec rule grants it; and the `call_tool` gate uses a plain
`startswith`, so a claim set holding `workplace:readable` is accepted for
`workplace:read` although the spec rule rejects it. -/
theorem c1_counterexample :
    (specGrants ["workplace:read:google_drive"] "workplace:read" = true ∧
      check_scope "workplace:read" ⟨"u", "e", ["workplace:read:google_drive"], 0⟩ =
        Except.error ⟨403, "Insufficient permissions. Required scope: workplace:read"⟩) ∧
    (specGrants ["workplace:readable"] "workplace:read" = false ∧
      callToolScopeCheck ⟨"u", "e", ["workplace:readable"], 0⟩ "workplace:read" = true) := by
  decide

/-- C1, amended: `check_scope` authorizes exactly when the claim set holds
the required string verbatim, and otherwise rejects with HTTP 403; the
`call_tool` gate authorizes exactly when some scope has the required
string as a plain string prefix (no `:` delimiter demanded); under that
gate the example claim set with `workplace:read:google_drive` is
authorized for `workplace:read` and not for `workplace:write`. -/
theorem c1_scope_authorization_amended :
    ∀ (user : UserClaims) (required : String),
      (check_scope required user = Except.ok user ↔ required ∈ user.scopes) ∧
      (required ∉ user.scopes →
        check_scope required user =
          Except.error ⟨403, "Insufficient permissions. Required scope: " ++ required⟩) ∧
      (callToolScopeCheck user required = true ↔
        ∃ s ∈ user.scopes, ∃ t, s = required ++ t) ∧
      callToolWorkplaceGate ⟨"u", "e", ["workplace:read:google_drive"], 0⟩ = true ∧
      callToolScopeCheck ⟨"u", "e", ["workplace:read:google_drive"], 0⟩ "workplace:write" = false := by
  intro user required
  refine ⟨?_, ?_, ?_, by decide, by decide⟩
  · by_cases h : required ∈ user.scopes <;> simp [check_scope, h]
  · intro h
    simp [check_scope, h]
  · simp [callToolScopeCheck, List.any_eq_true, strStartsWith_iff]

/-- C1, witness for the amended theorem at concrete inputs. -/
theorem c1_scope_authorization_amended_witness :
    check_scope "workplace:read" ⟨"u", "e", ["workplace:read"], 0⟩ =
      Except.ok ⟨"u", "e", ["workplace:read"], 0⟩ ∧
    callToolScopeCheck ⟨"u", "e", ["workplace:readable"], 0⟩ "workplace:read" = true :=
  ⟨(c1_scope_authorization_amended ⟨"u", "e", ["workplace:read"], 0⟩ "workplace:read").1.mpr
      (by decide),
   (c1_scope_authorization_amended ⟨"u", "e", ["workplace:readable"], 0⟩
      "workplace:read").2.2.1.mpr ⟨"workplace:readable", by decide, "able", by decide⟩⟩

/-- C5: the caller of `get_current_user` sees HTTP 401 with detail
"Invalid token" when the identity provider rejects the token (non-200
status) or the JWT cannot be decoded, and HTTP 401 with the distinct
detail "Authentication failed" when the provider call itself fails
(unreachable); the two error values are distinguishable. -/
theorem c5_auth_error_kinds :
    (∀ (status : Nat) (d : JwtDecodeOutcome), status ≠ 200 →
      get_current_user (ProviderCall.response status) d =
        Except.error ⟨401, "Invalid token"⟩) ∧
    get_current_user (ProviderCall.response 200) JwtDecodeOutcome.jwtError =
      Except.error ⟨401, "Invalid token"⟩ ∧
    (∀ d, get_current_user ProviderCall.raised d =
      Except.error ⟨401, "Authentication failed"⟩) ∧
    (⟨401, "Invalid token"⟩ : HTTPException) ≠ ⟨401, "Authentication failed"⟩ := by
  refine ⟨?_, by decide, fun d => rfl, by decide⟩
  intro status d h
  simp [get_current_user, verify_descope_token, h]

/-- C5, witness at a concrete rejected status. -/
theorem c5_auth_error_kinds_witness :
    get_current_user (ProviderCall.response 403) JwtDecodeOutcome.jwtError =
      Except.error ⟨401, "Invalid token"⟩ :=
  c5_auth_error_kinds.1 403 JwtDecodeOutcome.jwtError (by decide)

/-- C6: for every claim set, an empty `sources` list gives an empty
result sequence and `total_count = 0`; `search` is total, so no error is
raised. -/
theorem c6_empty_sources :
    ∀ (now : Int) (q : String) (m : Int) (i : Bool) (user : UserClaims),
      (search now ⟨q, [], m, i⟩ user).results = [] ∧
      (search now ⟨q, [], m, i⟩ user).total_count = 0 := by
  intro now q m i user
  constructor <;> simp [search, searchWith, collectedResults, sortByScoreDesc]

/-- C8: constructing a `WorkplaceSearchRequest` with `max_results`
outside [1,50] is a validation error, an in-range value constructs
successfully, and a successful construction stores the value unchanged
(never clamped). -/
theorem c8_max_results_validation :
    ∀ (q : String) (srcs : List String) (m : Int) (i : Bool),
      ((1 ≤ m ∧ m ≤ 50) →
        mkWorkplaceSearchRequest q srcs m i = Except.ok ⟨q, srcs, m, i⟩) ∧
      (¬(1 ≤ m ∧ m ≤ 50) →
        mkWorkplaceSearchRequest q srcs m i =
          Except.error ⟨422, "validation error: max_results out of range"⟩) ∧
      (∀ r, mkWorkplaceSearchRequest q srcs m i = Except.ok r → r.max_results = m) := by
  intro q srcs m i
  refine ⟨fun h => by simp [mkWorkplaceSearchRequest, h],
    fun h => by simp [mkWorkplaceSearchRequest, h], ?_⟩
  intro r hr
  by_cases h : 1 ≤ m ∧ m ≤ 50
  · simp [mkWorkplaceSearchRequest, h] at hr
    rw [← hr]
  · simp [mkWorkplaceSearchRequest, h] at hr

/-- C8, witness: an in-range and an out-of-range construction. -/
theorem c8_max_results_validation_witness :
    mkWorkplaceSearchRequest "q" ["google_drive"] 10 true =
      Except.ok ⟨"q", ["google_drive"], 10, true⟩ ∧
    mkWorkplaceSearchRequest "q" ["google_drive"] 51 true =
      Except.error ⟨422, "validation error: max_results out of range"⟩ :=
  ⟨(c8_max_results_validation "q" ["google_drive"] 10 true).1 (by decide),
   (c8_max_results_validation "q" ["google_drive"] 51 true).2.1 (by decide)⟩

/-- C7: the end-to-end scenario. With both read scopes and request
query "budget", sources both, `max_results = 1`, the response holds
exactly one result, from Google Drive, whose mock score 0.95 is the
higher of the two adapter scores (0.95 vs 0.88); the sources are echoed
and `total_count = 1`. -/
theorem c7_end_to_end :
    (search 0 ⟨"budget", ["google_drive", "notion"], 1, true⟩
        ⟨"u", "e", ["workplace:read:google_drive", "workplace:read:notion"], 0⟩).results.map
      (fun r => r.source) = ["google_drive"] ∧
    (search 0 ⟨"budget", ["google_drive", "notion"], 1, true⟩
        ⟨"u", "e", ["workplace:read:google_drive", "workplace:read:notion"], 0⟩).results.map
      (fun r => r.score) = [0.95] ∧
    (search 0 ⟨"budget", ["google_drive", "notion"], 1, true⟩
        ⟨"u", "e", ["workplace:read:google_drive", "workplace:read:notion"], 0⟩).total_count = 1 ∧
    (search 0 ⟨"budget", ["google_drive", "notion"], 1, true⟩
        ⟨"u", "e", ["workplace:read:google_drive", "workplace:read:notion"], 0⟩).sources =
      ["google_drive", "notion"] ∧
    (0.88 : ℚ) < 0.95 := by
  have hle : (0.88 : ℚ) ≤ (0.95 : ℚ) := by norm_num
  refine ⟨?_, ?_, ?_, ?_, by norm_num⟩ <;>
    simp [search, searchWith, collectedResults, sourceResults, mockDriveAdapter,
      mockNotionAdapter, search_google_drive, search_notion, sortByScoreDesc, insertDesc, hle]

/-- A failing Google Drive adapter contributes exactly what an
empty-result adapter contributes, per source, because the loop's
`try/except` absorbs the raise. -/
theorem sourceResults_gd_fail (gd nt : Adapter) (req : WorkplaceSearchRequest)
    (user : UserClaims) (s : String)
    (hfail : ∀ q t m, ∃ e, gd q t m = Except.error e) :
    sourceResults gd nt req user s = sourceResults adapterNoResults nt req user s := by
  obtain ⟨e, he⟩ := hfail req.query "mock_google_token" req.max_results
  unfold sourceResults
  by_cases h1 : s = "google_drive" ∧ "workplace:read:google_drive" ∈ user.scopes
  · rw [if_pos h1, if_pos h1, he]
    rfl
  · rw [if_neg h1, if_neg h1]

/-- A failing Notion adapter contributes exactly what an empty-result
adapter contributes, per source. -/
theorem sourceResults_nt_fail (gd nt : Adapter) (req : WorkplaceSearchRequest)
    (user : UserClaims) (s : String)
    (hfail : ∀ q t m, ∃ e, nt q t m = Except.error e) :
    sourceResults gd nt req user s = sourceResults gd adapterNoResults req user s := by
  obtain ⟨e, he⟩ := hfail req.query "mock_notion_token" req.max_results
  unfold sourceResults
  by_cases h1 : s = "google_drive" ∧ "workplace:read:google_drive" ∈ user.scopes
  · rw [if_pos h1, if_pos h1]
  · rw [if_neg h1, if_neg h1]
    by_cases h2 : s = "notion" ∧ "workplace:read:notion" ∈ user.scopes
    · rw [if_pos h2, if_pos h2, he]
      rfl
    · rw [if_neg h2, if_neg h2]

/-- C2: an adapter that raises on every call is absorbed by the
aggregation loop: the search still returns a response (the function is
total, so no error reaches the caller) and that response equals the one
computed from the other, non-failing adapter's results alone. Both
directions (Google Drive failing, Notion failing) are covered. -/
theorem c2_adapter_failure_absorbed :
    ∀ (gd nt : Adapter) (req : WorkplaceSearchRequest) (user : UserClaims),
      ((∀ q t m, ∃ e, gd q t m = Except.error e) →
        searchWith gd nt req user = searchWith adapterNoResults nt req user) ∧
      ((∀ q t m, ∃ e, nt q t m = Except.error e) →
        searchWith gd nt req user = searchWith gd adapterNoResults req user) := by
  intro gd nt req user
  constructor
  · intro hfail
    have hcol : collectedResults gd nt req user =
        collectedResults adapterNoResults nt req user := by
      unfold collectedResults
      exact congrArg List.flatten
        (List.map_congr_left fun s _ => sourceResults_gd_fail gd nt req user s hfail)
    simp only [searchWith, hcol]
  · intro hfail
    have hcol : collectedResults gd nt req user =
        collectedResults gd adapterNoResults req user := by
      unfold collectedResults
      exact congrArg List.flatten
        (List.map_congr_left fun s _ => sourceResults_nt_fail gd nt req user s hfail)
    simp only [searchWith, hcol]

/-- C2, witness: a concrete always-raising Google Drive adapter next to
the Notion mock. -/
theorem c2_adapter_failure_absorbed_witness :
    searchWith (fun _ _ _ => Except.error AdapterError.failure) (mockNotionAdapter 0)
        ⟨"budget", ["google_drive", "notion"], 10, true⟩
        ⟨"u", "e", ["workplace:read:google_drive", "workplace:read:notion"], 0⟩ =
      searchWith adapterNoResults (mockNotionAdapter 0)
        ⟨"budget", ["google_drive", "notion"], 10, true⟩
        ⟨"u", "e", ["workplace:read:google_drive", "workplace:read:notion"], 0⟩ :=
  (c2_adapter_failure_absorbed _ _ _ _).1 fun _ _ _ => ⟨AdapterError.failure, rfl⟩

/-- C3: with `max_results = k` in [1,50], the returned sequence length is
`min k (length of the combined collected sequence)` and never exceeds
`k`; the truncation acts on the combined sequence, after merging. -/
theorem c3_truncation_min :
    ∀ (gd nt : Adapter) (req : WorkplaceSearchRequest) (user : UserClaims),
      1 ≤ req.max_results → req.max_results ≤ 50 →
      (searchWith gd nt req user).results.length =
        min req.max_results.toNat (collectedResults gd nt req user).length ∧
      (searchWith gd nt req user).results.length ≤ req.max_results.toNat := by
  intro gd nt req user h1 h50
  have hres : (searchWith gd nt req user).results =
      (sortByScoreDesc (collectedResults gd nt req user)).take req.max_results.toNat := rfl
  rw [hres, List.length_take, sortByScoreDesc_length]
  exact ⟨rfl, Nat.min_le_left _ _⟩

/-- C3, witness at `max_results = 1` with two collected results. -/
theorem c3_truncation_min_witness :
    (searchWith (mockDriveAdapter 0) (mockNotionAdapter 0)
        ⟨"budget", ["google_drive", "notion"], 1, true⟩
        ⟨"u", "e", ["workplace:read:google_drive", "workplace:read:notion"], 0⟩).results.length =
      min (WorkplaceSearchRequest.mk "budget" ["google_drive", "notion"] 1 true).max_results.toNat
        (collectedResults (mockDriveAdapter 0) (mockNotionAdapter 0)
          ⟨"budget", ["google_drive", "notion"], 1, true⟩
          ⟨"u", "e", ["workplace:read:google_drive", "workplace:read:notion"], 0⟩).length ∧
    (searchWith (mockDriveAdapter 0) (mockNotionAdapter 0)
        ⟨"budget", ["google_drive", "notion"], 1, true⟩
        ⟨"u", "e", ["workplace:read:google_drive", "workplace:read:notion"], 0⟩).results.length ≤
      (WorkplaceSearchRequest.mk "budget" ["google_drive", "notion"] 1 true).max_results.toNat :=
  c3_truncation_min _ _ _ _ (by decide) (by decide)

/-- C4: the returned sequence is sorted by score descending, and it is
stable: for every score value, the results carrying that score appear as
a prefix of, and in the same order as, the equal-score results of the
combined arrival sequence (first source searched first, then
adapter-returned order). -/
theorem c4_sorted_and_stable :
    ∀ (gd nt : Adapter) (req : WorkplaceSearchRequest) (user : UserClaims),
      List.Pairwise (fun a b => b.score ≤ a.score) (searchWith gd nt req user).results ∧
      ∀ s : ℚ, ∃ t,
        (searchWith gd nt req user).results.filter (fun r => decide (r.score = s)) ++ t =
          (collectedResults gd nt req user).filter (fun r => decide (r.score = s)) := by
  intro gd nt req user
  have hres : (searchWith gd nt req user).results =
      (sortByScoreDesc (collectedResults gd nt req user)).take req.max_results.toNat := rfl
  constructor
  · rw [hres]
    exact (sortByScoreDesc_pairwise _).sublist (List.take_sublist _ _)
  · intro s
    rw [hres]
    refine ⟨((sortByScoreDesc (collectedResults gd nt req user)).drop
      req.max_results.toNat).filter (fun r => decide (r.score = s)), ?_⟩
    rw [← List.filter_append, List.take_append_drop, sortByScoreDesc_filter]

/-- C9, counterexample: an unrecognized source name does change the
response, because the `sources` field echoes the request's list
verbatim; the claimed response equality fails. -/
theorem c9_counterexample :
    search 0 ⟨"q", ["google_drive", "bogus"], 10, true⟩
        ⟨"u", "e", ["workplace:read:google_drive"], 0⟩ ≠
      search 0 ⟨"q", ["google_drive"], 10, true⟩
        ⟨"u", "e", ["workplace:read:google_drive"], 0⟩ := by
  intro h
  have hs := congrArg WorkplaceSearchResponse.sources h
  simp [search, searchWith] at hs

/-- C9, amended: a source name recognized by no adapter contributes no
results and causes no failure; the `results`, `total_count` and `query`
fields of the response equal those for the request with that name
removed (only the echoed `sources` field differs). -/
theorem c9_unknown_source_amended :
    ∀ (gd nt : Adapter) (q : String) (pre post : List String) (m : Int) (i : Bool)
      (user : UserClaims) (bogus : String),
      bogus ≠ "google_drive" → bogus ≠ "notion" →
      (searchWith gd nt ⟨q, pre ++ bogus :: post, m, i⟩ user).results =
        (searchWith gd nt ⟨q, pre ++ post, m, i⟩ user).results ∧
      (searchWith gd nt ⟨q, pre ++ bogus :: post, m, i⟩ user).total_count =
        (searchWith gd nt ⟨q, pre ++ post, m, i⟩ user).total_count ∧
      (searchWith gd nt ⟨q, pre ++ bogus :: post, m, i⟩ user).query =
        (searchWith gd nt ⟨q, pre ++ post, m, i⟩ user).query := by
  intro gd nt q pre post m i user bogus h1 h2
  have hfun : sourceResults gd nt ⟨q, pre ++ bogus :: post, m, i⟩ user =
      sourceResults gd nt ⟨q, pre ++ post, m, i⟩ user := rfl
  have hb : sourceResults gd nt ⟨q, pre ++ post, m, i⟩ user bogus = [] := by
    unfold sourceResults
    rw [if_neg fun hc => h1 hc.1, if_neg fun hc => h2 hc.1]
  have hcol : collectedResults gd nt ⟨q, pre ++ bogus :: post, m, i⟩ user =
      collectedResults gd nt ⟨q, pre ++ post, m, i⟩ user := by
    unfold collectedResults
    rw [hfun]
    simp [List.map_append, List.flatten_append, hb]
  refine ⟨?_, ?_, rfl⟩ <;> simp only [searchWith, hcol]

/-- C9, witness for the amended theorem with the unknown name "bogus"
after "google_drive". -/
theorem c9_unknown_source_amended_witness :
    (searchWith (mockDriveAdapter 0) (mockNotionAdapter 0)
        ⟨"q", ["google_drive"] ++ "bogus" :: [], 10, true⟩
        ⟨"u", "e", ["workplace:read:google_drive"], 0⟩).results =
      (searchWith (mockDriveAdapter 0) (mockNotionAdapter 0)
        ⟨"q", ["google_drive"] ++ [], 10, true⟩
        ⟨"u", "e", ["workplace:read:google_drive"], 0⟩).results ∧
    (searchWith (mockDriveAdapter 0) (mockNotionAdapter 0)
        ⟨"q", ["google_drive"] ++ "bogus" :: [], 10, true⟩
        ⟨"u", "e", ["workplace:read:google_drive"], 0⟩).total_count =
      (searchWith (mockDriveAdapter 0) (mockNotionAdapter 0)
        ⟨"q", ["google_drive"] ++ [], 10, true⟩
        ⟨"u", "e", ["workplace:read:google_drive"], 0⟩).total_count ∧
    (searchWith (mockDriveAdapter 0) (mockNotionAdapter 0)
        ⟨"q", ["google_drive"] ++ "bogus" :: [], 10, true⟩
        ⟨"u", "e", ["workplace:read:google_drive"], 0⟩).query =
      (searchWith (mockDriveAdapter 0) (mockNotionAdapter 0)
        ⟨"q", ["google_drive"] ++ [], 10, true⟩
        ⟨"u", "e", ["workplace:read:google_drive"], 0⟩).query :=
  c9_unknown_source_amended (mockDriveAdapter 0) (mockNotionAdapter 0) "q"
    ["google_drive"] [] 10 true ⟨"u", "e", ["workplace:read:google_drive"], 0⟩ "bogus"
    (by decide) (by decide)

/-- C10: a claim set holding only the broad scope `workplace:read`
passes the `call_tool` gateway check (plain-prefix match), yet the
aggregator, which gates each source by exact membership of
`workplace:read:<source>`, returns zero results for every query and
every non-empty sources list. -/
theorem c10_broad_scope_zero_results :
    ∀ (now : Int) (q : String) (srcs : List String) (m : Int) (i : Bool)
      (uid em : String) (ex : Int),
      srcs ≠ [] →
      callToolWorkplaceGate ⟨uid, em, ["workplace:read"], ex⟩ = true ∧
      (search now ⟨q, srcs, m, i⟩ ⟨uid, em, ["workplace:read"], ex⟩).results = [] ∧
      (search now ⟨q, srcs, m, i⟩ ⟨uid, em, ["workplace:read"], ex⟩).total_count = 0 := by
  intro now q srcs m i uid em ex _hne
  have hmem1 : "workplace:read:google_drive" ∉ (["workplace:read"] : List String) := by decide
  have hmem2 : "workplace:read:notion" ∉ (["workplace:read"] : List String) := by decide
  have hsr : ∀ s, sourceResults (mockDriveAdapter now) (mockNotionAdapter now)
      ⟨q, srcs, m, i⟩ ⟨uid, em, ["workplace:read"], ex⟩ s = [] := by
    intro s
    unfold sourceResults
    rw [if_neg fun hc => hmem1 hc.2, if_neg fun hc => hmem2 hc.2]
  have hcol : collectedResults (mockDriveAdapter now) (mockNotionAdapter now)
      ⟨q, srcs, m, i⟩ ⟨uid, em, ["workplace:read"], ex⟩ = [] := by
    unfold collectedResults
    exact flatten_all_nil _ fun l hl => by
      obtain ⟨s, _, rfl⟩ := List.mem_map.mp hl
      exact hsr s
  have hssw : strStartsWith "workplace:read" "workplace:read" = true := by decide
  refine ⟨?_, ?_, ?_⟩
  · simp [callToolWorkplaceGate, callToolScopeCheck, hssw]
  · simp [search, searchWith, hcol, sortByScoreDesc]
  · simp [search, searchWith, hcol, sortByScoreDesc]

/-- C10, witness at a concrete non-empty sources list. -/
theorem c10_broad_scope_zero_results_witness :
    callToolWorkplaceGate ⟨"u", "e", ["workplace:read"], 0⟩ = true ∧
    (search 0 ⟨"budget", ["google_drive", "notion"], 10, true⟩
      ⟨"u", "e", ["workplace:read"], 0⟩).results = [] ∧
    (search 0 ⟨"budget", ["google_drive", "notion"], 10, true⟩
      ⟨"u", "e", ["workplace:read"], 0⟩).total_count = 0 :=
  c10_broad_scope_zero_results 0 "budget" ["google_drive", "notion"] 10 true "u" "e" 0
    (by decide)
